import Mathlib

/-!
Shallow embedding of the chat-automation repository pieces that back the
conversation-metadata, stream-frame and HTTP-route claims.

Sources embedded:
* `src/apps/web/hooks/use-chat-workflow.ts` — client stream-frame state machine.
* `src/packages/trpc/src/routers/conversation.ts` — conversation CRUD router.
* `src/apps/web/app/api/chat/route.ts`, `.../chat/stream/route.ts` — chat routes.
* `src/unnamed/part_006` — `/api/chat/retry` and `/api/chat/resume` routes.
* `src/apps/web/lib/token-refresh.ts` — cookie token helpers.

JavaScript truthiness on strings and numbers is modelled explicitly by the
`jsTruthyStr` / `natFalsyFilter` helpers: `""`, `0`, `null`/`undefined` are
falsy, everything else truthy.
-/

/-- Model of JS `a || b` on strings: `""` is falsy. -/
def jsOrStr (a b : String) : String :=
  if a = "" then b else a

/-- Model of JS `x || null` on a possibly-absent string: `""` and absent map to `null`. -/
def jsTruthyStr : Option String → Option String
  | some s => if s = "" then none else some s
  | none => none

/-- Model of JS `input.title || "New Chat"` where `title` is an optional string. -/
def jsOrStrOpt (a : Option String) (b : String) : String :=
  match a with
  | some s => jsOrStr s b
  | none => b

/-- Model of JS truthiness of a possibly-absent number: `0` and absent are falsy. -/
def natFalsyFilter : Option Nat → Option Nat
  | some n => if n = 0 then none else some n
  | none => none

/-- Model of JS `a || b` on possibly-absent numbers, keeping only a truthy result. -/
def jsNumOr (a b : Option Nat) : Option Nat :=
  match natFalsyFilter a with
  | some n => some n
  | none => natFalsyFilter b

/-- Model of JS `s.slice(0, n)`: the first `n` characters of `s`. -/
def jsSlice0 (s : String) (n : Nat) : String :=
  String.mk (s.data.take n)

/-! ## Client data model (`use-chat-workflow.ts`, `workflow-timeline.tsx`) -/

/-- Step status union from `workflow-timeline.tsx` (`WorkflowStep.status`). -/
inductive StepStatus where
  | pending
  | in_progress
  | completed
  | failed
  | skipped
  | awaiting_approval
deriving DecidableEq, Repr

/-- `SearchResultData` from `workflow-timeline.tsx`. -/
structure SearchResultData where
  title : String
  url : String
  domain : String
  favicon : Option String
  date : Option String
deriving DecidableEq, Repr

/-- `WorkflowStep` from `workflow-timeline.tsx`; optional TS fields become `Option`. -/
structure WorkflowStep where
  step_number : Nat
  description : String
  status : StepStatus
  result : Option String
  error : Option String
  tools_used : List String
  requires_human_approval : Option Bool
  approval_reason : Option String
  thinking : Option String
  thinking_duration_ms : Option Nat
  search_results : Option (List SearchResultData)
deriving DecidableEq, Repr

/-- `IntegrationInfo` from `use-chat-workflow.ts`. -/
structure IntegrationInfo where
  name : String
  display_name : String
  tools_count : Nat
  icon : String
deriving DecidableEq, Repr

/-- `WorkflowStatus` union from `use-chat-workflow.ts`. -/
inductive WorkflowStatus where
  | idle
  | planning
  | executing
  | complete
  | error
deriving DecidableEq, Repr

/-- One entry of the `statusMessages` state array. -/
structure StatusMessage where
  text : String
  icon : Option String
deriving DecidableEq, Repr

/-- Raw step object carried in a `progress` frame's `plan.steps`
(fields that may be `undefined` on the wire are `Option`). -/
structure EventStep where
  step_number : Nat
  description : String
  status : StepStatus
  result : Option String
  error : Option String
  tools_used : Option (List String)
  requires_human_approval : Option Bool
  approval_reason : Option String
  thinking : Option String
  thinking_duration_ms : Option Nat
  search_results : Option (List SearchResultData)
deriving DecidableEq, Repr

/-- The `plan` object of a `progress` frame. -/
structure EventPlan where
  thinking : Option String
  steps : List EventStep
  is_complete : Bool
deriving DecidableEq, Repr

/-- The step-mapping arrow function used in the `progress` case of
`handleStreamEvent` (`tools_used: s.tools_used || []`, other fields copied). -/
def mapEventStep (s : EventStep) : WorkflowStep :=
  { step_number := s.step_number
    description := s.description
    status := s.status
    result := s.result
    error := s.error
    tools_used := s.tools_used.getD []
    requires_human_approval := s.requires_human_approval
    approval_reason := s.approval_reason
    thinking := s.thinking
    thinking_duration_ms := s.thinking_duration_ms
    search_results := s.search_results }

/-- SSE frames dispatched on by `handleStreamEvent` (`event.type` plus the
payload fields the handler reads). -/
inductive StreamEvent where
  | integrations_ready (total_tools : Nat) (total_integrations : Nat)
  | integration_added_incrementally (integration : Option IntegrationInfo)
  | step_thinking (step_number : Option Nat) (content : Option String)
      (duration_hint : Option Nat)
  | token (step_number : Option Nat) (content : Option String)
  | thinking (content : Option String)
  | progress (thread_id : Option String) (current_step : Option Nat)
      (plan : Option EventPlan)
  | approval_required (step_number : Option Nat) (interrupt_step_number : Option Nat)
  | error (message : Option String)
  | done
deriving DecidableEq, Repr

/-- The React state of `useChatWorkflow`, passed explicitly
(`useState` values plus the two refs). -/
structure ChatWorkflowState where
  workflowStatus : WorkflowStatus
  steps : List WorkflowStep
  currentStep : Nat
  originalRequest : String
  error : Option String
  planThinking : Option String
  statusMessages : List StatusMessage
  loadedIntegrations : List IntegrationInfo
  threadIdRef : Option String
  conversationCreatedRef : Bool
deriving DecidableEq, Repr

/-- Initial hook state: the `useState` defaults and null refs. -/
def mkInitialState : ChatWorkflowState :=
  { workflowStatus := .idle
    steps := []
    currentStep := 0
    originalRequest := ""
    error := none
    planThinking := none
    statusMessages := []
    loadedIntegrations := []
    threadIdRef := none
    conversationCreatedRef := false }

/-- One `createConversation.mutate({ threadId, title })` call emitted by the client. -/
structure CreateCall where
  threadId : String
  title : String
deriving DecidableEq, Repr

/-- `handleStreamEvent` from `use-chat-workflow.ts`: one frame in, the updated
state plus the conversation-create mutation the handler fires, if any. -/
def handleStreamEvent (s : ChatWorkflowState) :
    StreamEvent → ChatWorkflowState × Option CreateCall
  | .integrations_ready total_tools total_integrations =>
    ({ s with statusMessages := s.statusMessages ++
        [{ text := "Loaded " ++ toString total_tools ++ " tools from " ++
            toString total_integrations ++ " integrations"
           icon := some "🔌" }] }, none)
  | .integration_added_incrementally integration =>
    match integration with
    | some i =>
      ({ s with
          loadedIntegrations := s.loadedIntegrations ++ [i]
          statusMessages := s.statusMessages ++
            [{ text := "Added " ++ i.display_name ++ " (" ++
                toString i.tools_count ++ " tools)"
               icon := some (jsOrStr i.icon "🔌") }] }, none)
    | none => (s, none)
  | .step_thinking step_number content duration_hint =>
    match natFalsyFilter step_number with
    | some n =>
      ({ s with steps := s.steps.map fun st =>
          if st.step_number = n then
            { st with thinking := content, thinking_duration_ms := duration_hint }
          else st }, none)
    | none => (s, none)
  | .token _ _ => (s, none)
  | .thinking content =>
    ({ s with planThinking := jsTruthyStr content }, none)
  | .progress thread_id current_step plan =>
    let created : ChatWorkflowState × Option CreateCall :=
      match jsTruthyStr thread_id with
      | some tid =>
        if s.conversationCreatedRef then (s, none)
        else
          ({ s with threadIdRef := some tid, conversationCreatedRef := true },
           some { threadId := tid
                  title := jsOrStr (jsSlice0 s.originalRequest 100) "New Chat" })
      | none => (s, none)
    let s1 := created.1
    match plan with
    | some p =>
      let planSteps := p.steps.map mapEventStep
      ({ s1 with
          steps := planSteps
          planThinking := jsTruthyStr p.thinking
          currentStep := current_step.getD 0
          workflowStatus :=
            if planSteps.any fun st => decide (st.status = StepStatus.in_progress)
            then .executing else s1.workflowStatus }, created.2)
    | none => (s1, created.2)
  | .approval_required step_number interrupt_step_number =>
    let s1 := { s with workflowStatus := .executing }
    match jsNumOr step_number interrupt_step_number with
    | some stepNum =>
      ({ s1 with steps := s1.steps.map fun st =>
          if st.step_number = stepNum then { st with status := .awaiting_approval }
          else st }, none)
    | none => (s1, none)
  | .error message =>
    ({ s with error := some (jsOrStrOpt message "Unknown error")
              workflowStatus := .error }, none)
  | .done =>
    ({ s with workflowStatus := .complete
              statusMessages := s.statusMessages ++
                [{ text := "Workflow complete!", icon := some "✅" }] }, none)

/-- Fold `handleStreamEvent` over a frame sequence, collecting the
conversation-create calls in emission order. -/
def processFrames (s : ChatWorkflowState) :
    List StreamEvent → ChatWorkflowState × List CreateCall
  | [] => (s, [])
  | e :: rest =>
    let r := handleStreamEvent s e
    let r2 := processFrames r.1 rest
    (r2.1, r.2.toList ++ r2.2)

/-- The state reset performed at the top of `executeWorkflow(request)`
(the refs are not reset there). These `set*` calls update state for subsequent
renders only; the in-flight stream loop's handler closure does not see them
(see `handleStreamEventClosure`). -/
def executeWorkflowStart (s : ChatWorkflowState) (request : String) :
    ChatWorkflowState :=
  { s with
      originalRequest := request
      workflowStatus := .planning
      steps := []
      currentStep := 0
      error := none
      planThinking := none
      statusMessages := []
      loadedIntegrations := [] }

/-! ## Conversation router (`src/packages/trpc/src/routers/conversation.ts`)
over a list model of the prisma `conversation` table. -/

/-- One row of the prisma `conversation` table (the fields the router touches). -/
structure Conversation where
  id : String
  userId : String
  threadId : String
  title : String
deriving DecidableEq, Repr

/-- The conversation store: the table rows plus a counter generating fresh ids. -/
structure ConversationDb where
  conversations : List Conversation
  nextId : Nat
deriving DecidableEq, Repr

/-- tRPC errors thrown by the router. -/
inductive TRPCError where
  | notFound (msg : String)
deriving DecidableEq, Repr

/-- `prisma.conversation.findUnique({ where: { threadId } })`. -/
def findByThreadId (db : ConversationDb) (threadId : String) : Option Conversation :=
  db.conversations.find? fun c => decide (c.threadId = threadId)

/-- `prisma.conversation.findFirst({ where: { id, userId } })`. -/
def findByIdAndUser (db : ConversationDb) (id userId : String) : Option Conversation :=
  db.conversations.find? fun c => decide (c.id = id) && decide (c.userId = userId)

/-- `conversationRouter.create`: return the record already holding this
`threadId` if any, else insert a row with `title: input.title || "New Chat"`. -/
def conversationCreate (callerId threadId : String) (title : Option String)
    (db : ConversationDb) : Conversation × ConversationDb :=
  match findByThreadId db threadId with
  | some existing => (existing, db)
  | none =>
    let newConv : Conversation :=
      { id := "c" ++ toString db.nextId
        userId := callerId
        threadId := threadId
        title := jsOrStrOpt title "New Chat" }
    (newConv,
     { conversations := db.conversations ++ [newConv], nextId := db.nextId + 1 })

/-- `conversationRouter.get`: ownership-scoped lookup, `NOT_FOUND` otherwise. -/
def conversationGet (callerId id : String) (db : ConversationDb) :
    Except TRPCError Conversation :=
  match findByIdAndUser db id callerId with
  | some c => .ok c
  | none => .error (.notFound "Conversation not found")

/-- `conversationRouter.updateTitle`: verify ownership, then
`prisma.conversation.update({ where: { id }, data: { title } })`.
The pair's second component is the store after the call (unchanged on error). -/
def conversationUpdateTitle (callerId id title : String) (db : ConversationDb) :
    Except TRPCError Conversation × ConversationDb :=
  match findByIdAndUser db id callerId with
  | some c =>
    (.ok { c with title := title },
     { db with conversations := db.conversations.map fun r =>
        if r.id = id then { r with title := title } else r })
  | none => (.error (.notFound "Conversation not found"), db)

/-- `conversationRouter.delete`: verify ownership, then
`prisma.conversation.delete({ where: { id } })`. -/
def conversationDelete (callerId id : String) (db : ConversationDb) :
    Except TRPCError Conversation × ConversationDb :=
  match findByIdAndUser db id callerId with
  | some c =>
    (.ok c,
     { db with conversations := db.conversations.filter fun r => decide (r.id ≠ id) })
  | none => (.error (.notFound "Conversation not found"), db)

/-- Apply a list of client-emitted create calls to the store, in order,
on behalf of authenticated caller `u`. -/
def applyCreates (u : String) (db : ConversationDb) : List CreateCall → ConversationDb
  | [] => db
  | c :: cs => applyCreates u (conversationCreate u c.threadId (some c.title) db).2 cs

/-! ## HTTP route handlers (Next.js API routes) -/

/-- Caller cookie jar as read through `cookieStore.get(name)?.value`. -/
structure CookieStore where
  gmail_access_token : Option String
  gmail_refresh_token : Option String
  notion_access_token : Option String
  slack_access_token : Option String
  vercel_access_token : Option String
deriving DecidableEq, Repr

/-- Token bundle returned by the helpers in `token-refresh.ts`. -/
structure TokenBundle where
  gmailToken : Option String
  notionToken : Option String
  slackToken : Option String
deriving DecidableEq, Repr

/-- `getTokensFromCookies` from `token-refresh.ts`: plain reads, no refresh. -/
def getTokensFromCookies (cs : CookieStore) : TokenBundle :=
  { gmailToken := cs.gmail_access_token
    notionToken := cs.notion_access_token
    slackToken := cs.slack_access_token }

/-- `getRefreshedTokens` from `token-refresh.ts`. `refreshResult` stands for the
network outcome of `refreshGmailToken` when it is invoked (`none` = failure);
on success the helper also rewrites the `gmail_access_token` cookie. -/
def getRefreshedTokens (cs : CookieStore) (refreshResult : Option String) :
    TokenBundle × CookieStore :=
  match jsTruthyStr cs.gmail_refresh_token with
  | some _ =>
    match refreshResult with
    | some fresh =>
      ({ gmailToken := some fresh
         notionToken := cs.notion_access_token
         slackToken := cs.slack_access_token },
       { cs with gmail_access_token := some fresh })
    | none => (getTokensFromCookies cs, cs)
  | none => (getTokensFromCookies cs, cs)

/-- Status + body of the upstream FastAPI agent's reply to a route's `fetch`. -/
structure CoreResponse where
  status : Nat
deriving DecidableEq, Repr

/-- JS `response.ok`: status in `[200, 300)`. -/
def CoreResponse.isOk (r : CoreResponse) : Bool :=
  decide (200 ≤ r.status) && decide (r.status < 300)

/-- Result of one Next.js route invocation: HTTP status sent to the caller,
the payload forwarded to the workflow core if the `fetch` was reached,
and the cookie jar after the call. -/
structure RouteResult (π : Type) where
  status : Nat
  forwarded : Option π
  cookiesOut : CookieStore
deriving DecidableEq, Repr

/-- JSON body accepted by `/api/chat` and `/api/chat/stream` (each route
destructures the fields it cares about; absent fields are `none`). -/
structure ChatRequestBody where
  request : Option String
  message : Option String
  thread_id : Option String
deriving DecidableEq, Repr

/-- Payload the stream route forwards to `POST {AGENT_API_URL}/chat/stream`. -/
structure AgentStreamPayload where
  request : String
  thread_id : Option String
  gmail_token : Option String
  notion_token : Option String
  slack_token : Option String
deriving DecidableEq, Repr

/-- `POST /api/chat/stream` (`src/apps/web/app/api/chat/stream/route.ts`):
validate `request`, refresh tokens, forward, mirror upstream failure status. -/
def streamRoutePOST (body : ChatRequestBody) (cs : CookieStore)
    (refreshResult : Option String) (core : AgentStreamPayload → CoreResponse) :
    RouteResult AgentStreamPayload :=
  match jsTruthyStr body.request with
  | none => { status := 400, forwarded := none, cookiesOut := cs }
  | some workflowRequest =>
    let r := getRefreshedTokens cs refreshResult
    let payload : AgentStreamPayload :=
      { request := workflowRequest
        thread_id := jsTruthyStr body.thread_id
        gmail_token := jsTruthyStr r.1.gmailToken
        notion_token := jsTruthyStr r.1.notionToken
        slack_token := jsTruthyStr r.1.slackToken }
    let resp := core payload
    if resp.isOk then { status := 200, forwarded := some payload, cookiesOut := r.2 }
    else { status := resp.status, forwarded := some payload, cookiesOut := r.2 }

/-- Payload the chat route forwards to `POST {AGENT_API_URL}/chat`. -/
structure AgentChatPayload where
  message : String
  thread_id : Option String
  gmail_token : Option String
  vercel_token : Option String
  notion_token : Option String
deriving DecidableEq, Repr

/-- `POST /api/chat` (`src/apps/web/app/api/chat/route.ts`): validates the
`message` field, inline-refreshes the Gmail token when a refresh token cookie
is present, forwards, mirrors upstream failure status. -/
def chatRoutePOST (body : ChatRequestBody) (cs : CookieStore)
    (refreshResult : Option String) (core : AgentChatPayload → CoreResponse) :
    RouteResult AgentChatPayload :=
  match jsTruthyStr body.message with
  | none => { status := 400, forwarded := none, cookiesOut := cs }
  | some message =>
    let refreshed : Option String × CookieStore :=
      match jsTruthyStr cs.gmail_refresh_token with
      | some _ =>
        match refreshResult with
        | some fresh => (some fresh, { cs with gmail_access_token := some fresh })
        | none => (cs.gmail_access_token, cs)
      | none => (cs.gmail_access_token, cs)
    let payload : AgentChatPayload :=
      { message := message
        thread_id := jsTruthyStr body.thread_id
        gmail_token := jsTruthyStr refreshed.1
        vercel_token := jsTruthyStr cs.vercel_access_token
        notion_token := jsTruthyStr cs.notion_access_token }
    let resp := core payload
    if resp.isOk then
      { status := 200, forwarded := some payload, cookiesOut := refreshed.2 }
    else
      { status := resp.status, forwarded := some payload, cookiesOut := refreshed.2 }

/-- Model of JS truthiness of a possibly-absent (signed) number. -/
def intFalsyFilter : Option Int → Option Int
  | some n => if n = 0 then none else some n
  | none => none

/-- JSON body of `POST /api/chat/retry`. -/
structure RetryRequestBody where
  thread_id : Option String
  step_number : Option Int
deriving DecidableEq, Repr

/-- Payload the retry route forwards to `POST {AGENT_API_URL}/chat/retry`. -/
structure AgentRetryPayload where
  thread_id : String
  step_number : Int
  gmail_token : Option String
  notion_token : Option String
  slack_token : Option String
deriving DecidableEq, Repr

/-- `POST /api/chat/retry` (`src/unnamed/part_006`): reject 400 when
`thread_id` or `step_number` is falsy, read cookies (no refresh), forward,
mirror upstream failure status. -/
def retryRoutePOST (body : RetryRequestBody) (cs : CookieStore)
    (core : AgentRetryPayload → CoreResponse) : RouteResult AgentRetryPayload :=
  match jsTruthyStr body.thread_id, intFalsyFilter body.step_number with
  | some tid, some n =>
    let payload : AgentRetryPayload :=
      { thread_id := tid
        step_number := n
        gmail_token := jsTruthyStr cs.gmail_access_token
        notion_token := jsTruthyStr cs.notion_access_token
        slack_token := jsTruthyStr cs.slack_access_token }
    let resp := core payload
    if resp.isOk then { status := 200, forwarded := some payload, cookiesOut := cs }
    else { status := resp.status, forwarded := some payload, cookiesOut := cs }
  | _, _ => { status := 400, forwarded := none, cookiesOut := cs }

/-- JSON body of `POST /api/chat/resume`. The HITL `content` object is kept
opaque as a string. -/
structure ResumeRequestBody where
  thread_id : Option String
  action : Option String
  content : Option String
deriving DecidableEq, Repr

/-- Payload the resume route forwards to `POST {AGENT_API_URL}/chat/resume`. -/
structure AgentResumePayload where
  thread_id : String
  action : String
  content : Option String
  gmail_token : Option String
  notion_token : Option String
  slack_token : Option String
deriving DecidableEq, Repr

/-- `POST /api/chat/resume` (`src/unnamed/part_006`): reject 400 when
`thread_id` or `action` is falsy, read tokens via `getTokensFromCookies`
(no refresh), forward, mirror upstream failure status. -/
def resumeRoutePOST (body : ResumeRequestBody) (cs : CookieStore)
    (core : AgentResumePayload → CoreResponse) : RouteResult AgentResumePayload :=
  match jsTruthyStr body.thread_id, jsTruthyStr body.action with
  | some tid, some act =>
    let tokens := getTokensFromCookies cs
    let payload : AgentResumePayload :=
      { thread_id := tid
        action := act
        content := jsTruthyStr body.content
        gmail_token := jsTruthyStr tokens.gmailToken
        notion_token := jsTruthyStr tokens.notionToken
        slack_token := jsTruthyStr tokens.slackToken }
    let resp := core payload
    if resp.isOk then { status := 200, forwarded := some payload, cookiesOut := cs }
    else { status := resp.status, forwarded := some payload, cookiesOut := cs }
  | _, _ => { status := 400, forwarded := none, cookiesOut := cs }

/-- Modelled from the spec: the workflow core's `/chat/retry` handler (the
FastAPI agent service is not under `src/`). Spec §8: "`/chat/retry` with a
step number outside 1..N returns 400", where `N` is the step count of the
thread's current plan. In-range retries succeed. -/
def coreRetrySpec (N : Nat) (p : AgentRetryPayload) : CoreResponse :=
  if 1 ≤ p.step_number ∧ p.step_number ≤ (N : Int) then { status := 200 }
  else { status := 400 }

/-- Modelled from the spec: the workflow core's `/chat/resume` handler (the
FastAPI agent service is not under `src/`). Spec §7: "malformed request body,
unknown resume action: reject with 400, no state change"; §6 admits actions
`approve`, `edit`, `skip`. -/
def coreResumeSpec (p : AgentResumePayload) : CoreResponse :=
  if p.action = "approve" ∨ p.action = "edit" ∨ p.action = "skip" then
    { status := 200 }
  else { status := 400 }

/-! ## Helper lemmas -/

/-- The ownership-scoped lookup misses exactly when no row has this id and owner. -/
theorem findByIdAndUser_eq_none_iff (db : ConversationDb) (id userId : String) :
    findByIdAndUser db id userId = none ↔
      ¬ ∃ c ∈ db.conversations, c.id = id ∧ c.userId = userId := by
  simp [findByIdAndUser, List.find?_eq_none]

/-- `create` short-circuits on an existing row for the thread id: the row is
returned and the store is untouched, whoever the caller is. -/
theorem conversationCreate_existing (db : ConversationDb)
    (callerId threadId : String) (title : Option String) (c : Conversation)
    (hfind : findByThreadId db threadId = some c) :
    conversationCreate callerId threadId title db = (c, db) := by
  simp [conversationCreate, hfind]

/-- A `NOT_FOUND` outcome of a router call. -/
def isNotFound {α : Type} : Except TRPCError α → Prop
  | .error (.notFound _) => True
  | .ok _ => False

/-! ## C9 -/

/-- C9: `conversation.create` with an already-recorded thread id returns the
existing record unchanged and writes nothing, for every caller — including a
caller different from the record's owner; the duplicate check is by thread id
only and performs no ownership check. -/
theorem create_duplicate_check_ignores_owner (db : ConversationDb)
    (callerId threadId : String) (title : Option String) (c : Conversation)
    (hfind : findByThreadId db threadId = some c) :
    conversationCreate callerId threadId title db = (c, db) :=
  conversationCreate_existing db callerId threadId title c hfind

/-- Store fixture: one conversation owned by `alice`. -/
def convW : Conversation :=
  { id := "c0", userId := "alice", threadId := "t1", title := "hello" }

/-- Store fixture holding `convW`. -/
def dbW : ConversationDb := { conversations := [convW], nextId := 1 }

/-- Witness for C9: caller `bob` differs from owner `alice`, yet `create`
returns `alice`'s record and leaves the store unchanged. -/
theorem create_duplicate_check_ignores_owner_witness :
    conversationCreate "bob" "t1" (some "fresh title") dbW = (convW, dbW) ∧
    convW.userId ≠ "bob" :=
  ⟨create_duplicate_check_ignores_owner dbW "bob" "t1" (some "fresh title") convW
      (by decide), by decide⟩

/-! ## C10 -/

/-- C10: `conversation.get`, `conversation.updateTitle` and
`conversation.delete` fail with `NOT_FOUND` exactly when no conversation with
the given id is owned by the caller, and a failing call leaves the store
unchanged. -/
theorem conversation_ops_notFound_iff (db : ConversationDb)
    (user id title : String) :
    (isNotFound (conversationGet user id db) ↔
       ¬ ∃ c ∈ db.conversations, c.id = id ∧ c.userId = user) ∧
    (isNotFound (conversationUpdateTitle user id title db).1 ↔
       ¬ ∃ c ∈ db.conversations, c.id = id ∧ c.userId = user) ∧
    (isNotFound (conversationUpdateTitle user id title db).1 →
       (conversationUpdateTitle user id title db).2 = db) ∧
    (isNotFound (conversationDelete user id db).1 ↔
       ¬ ∃ c ∈ db.conversations, c.id = id ∧ c.userId = user) ∧
    (isNotFound (conversationDelete user id db).1 →
       (conversationDelete user id db).2 = db) := by
  have hiff := findByIdAndUser_eq_none_iff db id user
  rcases hfind : findByIdAndUser db id user with _ | c
  · have hno := hiff.mp hfind
    refine ⟨?_, ?_, ?_, ?_, ?_⟩ <;>
      simp [conversationGet, conversationUpdateTitle, conversationDelete,
        hfind, isNotFound, hno]
  · have hmem : c ∈ db.conversations := List.mem_of_find?_eq_some hfind
    have hp := List.find?_some hfind
    simp only [Bool.and_eq_true, decide_eq_true_eq] at hp
    have hex : ∃ x ∈ db.conversations, x.id = id ∧ x.userId = user :=
      ⟨c, hmem, hp.1, hp.2⟩
    refine ⟨?_, ?_, ?_, ?_, ?_⟩ <;>
      simp [conversationGet, conversationUpdateTitle, conversationDelete,
        hfind, isNotFound, hex]

/-- Empty store fixture. -/
def dbEmpty : ConversationDb := { conversations := [], nextId := 0 }

/-- Witness for C10: on an empty store every op misses with `NOT_FOUND` and
the mutating ops leave the store untouched. -/
theorem conversation_ops_notFound_iff_witness :
    isNotFound (conversationGet "u" "x" dbEmpty) ∧
    (conversationUpdateTitle "u" "x" "t" dbEmpty).2 = dbEmpty ∧
    (conversationDelete "u" "x" dbEmpty).2 = dbEmpty := by
  have h := conversation_ops_notFound_iff dbEmpty "u" "x" "t"
  have hno : ¬ ∃ c ∈ dbEmpty.conversations, c.id = "x" ∧ c.userId = "u" := by
    simp [dbEmpty]
  exact ⟨h.1.mpr hno, h.2.2.1 (h.2.1.mpr hno), h.2.2.2.2 (h.2.2.2.1.mpr hno)⟩

/-! ## C5 -/

/-- A pending client step with empty result, for the token-frame experiments. -/
def stepPendingW : WorkflowStep :=
  { step_number := 1, description := "step one", status := .pending,
    result := none, error := none, tools_used := [],
    requires_human_approval := none, approval_reason := none, thinking := none,
    thinking_duration_ms := none, search_results := none }

/-- Client state holding `stepPendingW`. -/
def stateTokenW : ChatWorkflowState := { mkInitialState with steps := [stepPendingW] }

/-- Counterexample for C5: a stream consisting of one
`token { step_number: 1, content: "abc" }` frame leaves step 1's result empty —
it does not equal the concatenation `"abc"` of the step's token contents. -/
theorem token_frame_counterexample :
    ((processFrames stateTokenW
        [.token (some 1) (some "abc")]).1.steps.map fun st => st.result) ≠
      [some "abc"] := by
  decide

/-- C5 amended: the client ignores `token` frames entirely — processing one
leaves the client state unchanged and emits nothing; a step's result comes
only from canonical `progress` snapshots (and endpoint responses). -/
theorem token_frame_is_ignored (s : ChatWorkflowState)
    (step_number : Option Nat) (content : Option String) :
    handleStreamEvent s (.token step_number content) = (s, none) :=
  rfl

/-! ## C2 -/

/-- Empty cookie jar fixture. -/
def cookiesEmptyW : CookieStore :=
  { gmail_access_token := none, gmail_refresh_token := none,
    notion_access_token := none, slack_access_token := none,
    vercel_access_token := none }

/-- A body with the text only under `message`, `request` absent. -/
def chatBodyMsgOnlyW : ChatRequestBody :=
  { request := none, message := some "hello", thread_id := none }

/-- Counterexample for C2: on a body whose `request` field is absent (text
under `message` instead), `POST /chat` does not reject with 400 — it forwards
the call to the workflow core and returns the core's success status. -/
theorem chat_field_mismatch_counterexample :
    (chatRoutePOST chatBodyMsgOnlyW cookiesEmptyW none
        fun _ => { status := 200 }).status ≠ 400 ∧
    (chatRoutePOST chatBodyMsgOnlyW cookiesEmptyW none
        fun _ => { status := 200 }).forwarded ≠ none := by
  decide

/-- C2 amended: the two endpoints do not validate the same field. `POST
/chat/stream` carries its text in `request` and rejects with 400, before any
call reaches the workflow core, every body whose `request` is absent or empty;
`POST /chat` instead carries its text in `message` and rejects with 400,
before any call reaches the core, every body whose `message` is absent or
empty. -/
theorem chat_routes_validation (b : ChatRequestBody) (cs : CookieStore)
    (refreshResult : Option String) (coreS : AgentStreamPayload → CoreResponse)
    (coreC : AgentChatPayload → CoreResponse) :
    (jsTruthyStr b.request = none →
      (streamRoutePOST b cs refreshResult coreS).status = 400 ∧
      (streamRoutePOST b cs refreshResult coreS).forwarded = none) ∧
    (jsTruthyStr b.message = none →
      (chatRoutePOST b cs refreshResult coreC).status = 400 ∧
      (chatRoutePOST b cs refreshResult coreC).forwarded = none) := by
  constructor <;> intro h <;> simp [streamRoutePOST, chatRoutePOST, h]

/-- A body with neither text field. -/
def chatBodyEmptyW : ChatRequestBody :=
  { request := none, message := none, thread_id := none }

/-- Witness for the amended C2 at a body lacking both fields. -/
theorem chat_routes_validation_witness :
    (streamRoutePOST chatBodyEmptyW cookiesEmptyW none
        fun _ => { status := 200 }).status = 400 ∧
    (chatRoutePOST chatBodyEmptyW cookiesEmptyW none
        fun _ => { status := 200 }).status = 400 :=
  ⟨((chat_routes_validation chatBodyEmptyW cookiesEmptyW none
        (fun _ => { status := 200 }) fun _ => { status := 200 }).1 rfl).1,
   ((chat_routes_validation chatBodyEmptyW cookiesEmptyW none
        (fun _ => { status := 200 }) fun _ => { status := 200 }).2 rfl).1⟩

/-! ## C3 -/

/-- C3: `/chat/resume` and `/chat/retry` forward to the workflow core exactly
the bearer tokens read from the caller's cookies (empty values as null), and
both routes leave the cookie store unchanged — no refresh is performed there. -/
theorem resume_retry_no_token_refresh (rb : ResumeRequestBody)
    (tb : RetryRequestBody) (cs : CookieStore)
    (coreR : AgentResumePayload → CoreResponse)
    (coreT : AgentRetryPayload → CoreResponse) :
    (resumeRoutePOST rb cs coreR).cookiesOut = cs ∧
    (retryRoutePOST tb cs coreT).cookiesOut = cs ∧
    (∀ p, (resumeRoutePOST rb cs coreR).forwarded = some p →
      p.gmail_token = jsTruthyStr cs.gmail_access_token ∧
      p.notion_token = jsTruthyStr cs.notion_access_token ∧
      p.slack_token = jsTruthyStr cs.slack_access_token) ∧
    (∀ p, (retryRoutePOST tb cs coreT).forwarded = some p →
      p.gmail_token = jsTruthyStr cs.gmail_access_token ∧
      p.notion_token = jsTruthyStr cs.notion_access_token ∧
      p.slack_token = jsTruthyStr cs.slack_access_token) := by
  refine ⟨?_, ?_, ?_, ?_⟩ <;>
    simp only [resumeRoutePOST, retryRoutePOST, getTokensFromCookies] <;>
    (repeat' split) <;>
    simp_all

/-- Cookie jar fixture with Gmail and Notion tokens present. -/
def cookiesW : CookieStore :=
  { gmail_access_token := some "g1", gmail_refresh_token := some "r1",
    notion_access_token := some "n1", slack_access_token := none,
    vercel_access_token := none }

/-- Resume body fixture with a valid action. -/
def resumeBodyW : ResumeRequestBody :=
  { thread_id := some "t1", action := some "approve", content := none }

/-- Retry body fixture with an in-range step number. -/
def retryBodyW : RetryRequestBody := { thread_id := some "t1", step_number := some 2 }

/-- The payload `resumeRoutePOST` forwards for `resumeBodyW` over `cookiesW`. -/
def resumePayloadW : AgentResumePayload :=
  { thread_id := "t1", action := "approve", content := none,
    gmail_token := some "g1", notion_token := some "n1", slack_token := none }

/-- Witness for C3: a concrete resume call forwards precisely the cookie
tokens and leaves the cookie jar as it was. -/
theorem resume_retry_no_token_refresh_witness :
    (resumeRoutePOST resumeBodyW cookiesW coreResumeSpec).cookiesOut = cookiesW ∧
    (resumePayloadW.gmail_token = jsTruthyStr cookiesW.gmail_access_token ∧
     resumePayloadW.notion_token = jsTruthyStr cookiesW.notion_access_token ∧
     resumePayloadW.slack_token = jsTruthyStr cookiesW.slack_access_token) :=
  ⟨(resume_retry_no_token_refresh resumeBodyW retryBodyW cookiesW coreResumeSpec
      (coreRetrySpec 3)).1,
   (resume_retry_no_token_refresh resumeBodyW retryBodyW cookiesW coreResumeSpec
      (coreRetrySpec 3)).2.2.1 resumePayloadW (by decide)⟩

/-! ## C6 -/

/-- Resume body fixture with an unknown action. -/
def resumeBodyBadW : ResumeRequestBody :=
  { thread_id := some "t1", action := some "explode", content := none }

/-- Counterexample for C6: a resume request with unknown action `"explode"`
passes the route's validation and IS forwarded to the workflow core — the
rejection does not happen before the core is reached. -/
theorem resume_unknown_action_counterexample :
    (resumeRoutePOST resumeBodyBadW cookiesEmptyW coreResumeSpec).forwarded ≠
      none := by
  decide

/-- C6 amended: a resume request whose action is missing or empty is rejected
with 400 before the workflow core is reached; one with an unknown non-empty
action is forwarded to the workflow core, which rejects it (spec §7, modelled
by `coreResumeSpec`), and the route relays that 400 — so the caller sees
status 400 in every case, but not always before the core is called. -/
theorem resume_unknown_action_400 (b : ResumeRequestBody) (cs : CookieStore) :
    (b.action = none →
      (resumeRoutePOST b cs coreResumeSpec).status = 400 ∧
      (resumeRoutePOST b cs coreResumeSpec).forwarded = none) ∧
    (∀ a, b.action = some a → a ≠ "approve" → a ≠ "edit" → a ≠ "skip" →
      (resumeRoutePOST b cs coreResumeSpec).status = 400) := by
  constructor
  · intro h
    cases htid : jsTruthyStr b.thread_id <;>
      simp [resumeRoutePOST, htid, h, jsTruthyStr]
  · intro a ha h1 h2 h3
    cases htid : jsTruthyStr b.thread_id with
    | none => simp [resumeRoutePOST, htid]
    | some tid =>
      by_cases hae : a = ""
      · simp [resumeRoutePOST, htid, ha, hae, jsTruthyStr]
      · have ha2 : jsTruthyStr (some a) = some a := by simp [jsTruthyStr, hae]
        simp [resumeRoutePOST, htid, ha, ha2, coreResumeSpec,
          CoreResponse.isOk, h1, h2, h3]

/-- Witness for the amended C6 at action `"explode"`. -/
theorem resume_unknown_action_400_witness :
    (resumeRoutePOST resumeBodyBadW cookiesEmptyW coreResumeSpec).status = 400 :=
  (resume_unknown_action_400 resumeBodyBadW cookiesEmptyW).2 "explode" rfl
    (by decide) (by decide) (by decide)

/-! ## C7 -/

/-- C7 (core modelled from the spec): `/chat/retry` with a step number outside
`1..N` answers 400 — step number 0 is caught by the route's own falsiness
check, any other out-of-range number is forwarded and the route relays the
core's 400. -/
theorem retry_out_of_range_400 (b : RetryRequestBody) (cs : CookieStore)
    (N : Nat) (n : Int) (hn : b.step_number = some n)
    (hout : n < 1 ∨ (N : Int) < n) :
    (retryRoutePOST b cs (coreRetrySpec N)).status = 400 := by
  cases htid : jsTruthyStr b.thread_id with
  | none => simp [retryRoutePOST, htid]
  | some tid =>
    by_cases hz : n = 0
    · simp [retryRoutePOST, htid, hn, hz, intFalsyFilter]
    · have hrange : ¬ (1 ≤ n ∧ n ≤ (N : Int)) := by omega
      simp [retryRoutePOST, htid, hn, hz, intFalsyFilter, coreRetrySpec,
        hrange, CoreResponse.isOk]

/-- Retry body fixture with an out-of-range step number. -/
def retryBodyOutW : RetryRequestBody :=
  { thread_id := some "t1", step_number := some 5 }

/-- Witness for C7: step number 5 against a 2-step plan answers 400. -/
theorem retry_out_of_range_400_witness :
    (retryRoutePOST retryBodyOutW cookiesEmptyW (coreRetrySpec 2)).status = 400 :=
  retry_out_of_range_400 retryBodyOutW cookiesEmptyW 2 5 rfl (Or.inr (by decide))

/-! ## Stream-processing lemmas for C1 -/

/-- Once the created ref is set, it stays set and no further create fires. -/
theorem handleStreamEvent_created (s : ChatWorkflowState) (e : StreamEvent)
    (h : s.conversationCreatedRef = true) :
    (handleStreamEvent s e).1.conversationCreatedRef = true ∧
    (handleStreamEvent s e).2 = none := by
  cases e <;> simp only [handleStreamEvent] <;> (repeat' split) <;> simp_all

/-- Frames other than `progress` fire no create and leave the ref alone. -/
theorem handleStreamEvent_not_progress (s : ChatWorkflowState) (e : StreamEvent)
    (h : ∀ tid cur pl, e ≠ .progress tid cur pl) :
    (handleStreamEvent s e).1.conversationCreatedRef = s.conversationCreatedRef ∧
    (handleStreamEvent s e).2 = none := by
  cases e <;>
    first
      | exact absurd rfl (h _ _ _)
      | (simp only [handleStreamEvent]; (repeat' split) <;> simp_all)

/-- A `progress` frame with a truthy thread id on a not-yet-created state fires
exactly the thread's create call and flips the ref. -/
theorem handleStreamEvent_progress_creates (s : ChatWorkflowState)
    (tid : Option String) (cur : Option Nat) (pl : Option EventPlan) (t : String)
    (hs : s.conversationCreatedRef = false) (htid : jsTruthyStr tid = some t) :
    (handleStreamEvent s (.progress tid cur pl)).2 =
      some { threadId := t,
             title := jsOrStr (jsSlice0 s.originalRequest 100) "New Chat" } ∧
    (handleStreamEvent s (.progress tid cur pl)).1.conversationCreatedRef =
      true := by
  simp only [handleStreamEvent, htid]
  cases pl <;> simp [hs]

/-- After the ref is set, a whole frame sequence fires no creates. -/
theorem processFrames_created (s : ChatWorkflowState) (frames : List StreamEvent)
    (h : s.conversationCreatedRef = true) :
    (processFrames s frames).2 = [] := by
  induction frames generalizing s with
  | nil => rfl
  | cons e rest ih =>
    have hc := handleStreamEvent_created s e h
    simp [processFrames, hc.2, ih _ hc.1]

/-- Over a stream whose `progress` frames all carry the same truthy thread id,
a fresh client fires exactly one create call, for that thread id. -/
theorem processFrames_single_call (s : ChatWorkflowState)
    (frames : List StreamEvent) (t : String)
    (hs : s.conversationCreatedRef = false)
    (hall : ∀ tid cur pl, StreamEvent.progress tid cur pl ∈ frames →
      jsTruthyStr tid = some t)
    (hex : ∃ tid cur pl, StreamEvent.progress tid cur pl ∈ frames) :
    ∃ title, (processFrames s frames).2 = [{ threadId := t, title := title }] := by
  revert hs hall hex
  induction frames generalizing s with
  | nil =>
    intro _ _ hex
    obtain ⟨tid, cur, pl, hmem⟩ := hex
    exact absurd hmem (List.not_mem_nil _)
  | cons e rest ih =>
    intro hs hall hex
    by_cases hp : ∃ tid cur pl, e = StreamEvent.progress tid cur pl
    · obtain ⟨tid, cur, pl, rfl⟩ := hp
      have htid : jsTruthyStr tid = some t :=
        hall tid cur pl (List.mem_cons_self _ _)
      have hcr := handleStreamEvent_progress_creates s tid cur pl t hs htid
      have hrest := processFrames_created
        (handleStreamEvent s (.progress tid cur pl)).1 rest hcr.2
      exact ⟨jsOrStr (jsSlice0 s.originalRequest 100) "New Chat",
        by simp [processFrames, hcr.1, hrest]⟩
    · have hnp : ∀ tid cur pl, e ≠ StreamEvent.progress tid cur pl := by
        intro tid cur pl hEq
        exact hp ⟨tid, cur, pl, hEq⟩
      have hne := handleStreamEvent_not_progress s e hnp
      have hs' : (handleStreamEvent s e).1.conversationCreatedRef = false := by
        rw [hne.1, hs]
      have hall' : ∀ tid cur pl, StreamEvent.progress tid cur pl ∈ rest →
          jsTruthyStr tid = some t :=
        fun tid cur pl hm => hall tid cur pl (List.mem_cons_of_mem _ hm)
      have hex' : ∃ tid cur pl, StreamEvent.progress tid cur pl ∈ rest := by
        obtain ⟨tid, cur, pl, hmem⟩ := hex
        rcases List.mem_cons.mp hmem with hEq | hmem'
        · exact absurd hEq.symm (hnp tid cur pl)
        · exact ⟨tid, cur, pl, hmem'⟩
      obtain ⟨title, htail⟩ := ih _ hs' hall' hex'
      exact ⟨title, by simp [processFrames, hne.2, htail]⟩

/-! ## C1 -/

/-- C1: a brand-new thread's `/chat/stream` frame sequence produces exactly one
conversation-metadata record however many `progress` frames arrive, and a
`create` for a thread id that already has a record returns the existing record
and performs no additional write. -/
theorem stream_creates_exactly_one_record (s : ChatWorkflowState)
    (frames : List StreamEvent) (t u : String) (db : ConversationDb)
    (hs : s.conversationCreatedRef = false)
    (hdb : ∀ c ∈ db.conversations, c.threadId ≠ t)
    (hall : ∀ tid cur pl, StreamEvent.progress tid cur pl ∈ frames →
      jsTruthyStr tid = some t)
    (hex : ∃ tid cur pl, StreamEvent.progress tid cur pl ∈ frames) :
    ((applyCreates u db (processFrames s frames).2).conversations.countP
        fun c => decide (c.threadId = t)) = 1 ∧
    ∀ (db2 : ConversationDb) (caller : String) (title : Option String)
      (c : Conversation), findByThreadId db2 t = some c →
      conversationCreate caller t title db2 = (c, db2) := by
  constructor
  · obtain ⟨title, hcalls⟩ := processFrames_single_call s frames t hs hall hex
    rw [hcalls]
    have hfind : findByThreadId db t = none := by
      rw [findByThreadId, List.find?_eq_none]
      intro c hc
      simp [hdb c hc]
    have hc0 : (db.conversations.countP fun c => decide (c.threadId = t)) = 0 :=
      List.countP_eq_zero.mpr (by intro c hc; simp [hdb c hc])
    simp [applyCreates, conversationCreate, hfind, List.countP_append, hc0]
  · intro db2 caller title c hfind
    exact conversationCreate_existing db2 caller t title c hfind

/-- One-frame stream fixture: a single `progress` frame for thread `t1`. -/
def framesOneProgressW : List StreamEvent :=
  [.progress (some "t1") (some 0) none]

/-- Witness for C1: one progress frame on an empty store yields exactly one
record for thread `t1`. -/
theorem stream_creates_exactly_one_record_witness :
    ((applyCreates "u1" dbEmpty
        (processFrames mkInitialState framesOneProgressW).2).conversations.countP
        fun c => decide (c.threadId = "t1")) = 1 :=
  (stream_creates_exactly_one_record mkInitialState framesOneProgressW "t1" "u1"
    dbEmpty rfl (by simp [dbEmpty])
    (by
      intro tid cur pl hm
      simp only [framesOneProgressW, List.mem_singleton] at hm
      rcases hm with ⟨rfl, rfl, rfl⟩
      rfl)
    ⟨some "t1", some 0, none, by simp [framesOneProgressW]⟩).1

/-! ## C8 -/

/-- The `handleStreamEvent` closure as the SSE read loop actually invokes it:
`useCallback` captures the `originalRequest` state value at render time (deps
`[originalRequest, createConversation]`), and the stream loop inside the
running `executeWorkflow` keeps calling the instance captured before
`setOriginalRequest(request)` takes effect — so the create-call title is
computed from the captured value, not from the state current when the frame
arrives. Every other read in the handler is a functional `set*(prev => ...)`
update, a ref access, or a plain write, so all remaining cases coincide with
`handleStreamEvent`. -/
def handleStreamEventClosure (capturedOriginalRequest : String)
    (s : ChatWorkflowState) :
    StreamEvent → ChatWorkflowState × Option CreateCall
  | .progress thread_id current_step plan =>
    let created : ChatWorkflowState × Option CreateCall :=
      match jsTruthyStr thread_id with
      | some tid =>
        if s.conversationCreatedRef then (s, none)
        else
          ({ s with threadIdRef := some tid, conversationCreatedRef := true },
           some { threadId := tid
                  title := jsOrStr (jsSlice0 capturedOriginalRequest 100)
                    "New Chat" })
      | none => (s, none)
    let s1 := created.1
    match plan with
    | some p =>
      let planSteps := p.steps.map mapEventStep
      ({ s1 with
          steps := planSteps
          planThinking := jsTruthyStr p.thinking
          currentStep := current_step.getD 0
          workflowStatus :=
            if planSteps.any fun st => decide (st.status = StepStatus.in_progress)
            then .executing else s1.workflowStatus }, created.2)
    | none => (s1, created.2)
  | e => handleStreamEvent s e

/-- Fold the captured handler closure over a frame sequence, collecting the
conversation-create calls: one `executeWorkflow` run dispatches every frame to
the same captured closure. -/
def processFramesClosure (capturedOriginalRequest : String)
    (s : ChatWorkflowState) :
    List StreamEvent → ChatWorkflowState × List CreateCall
  | [] => (s, [])
  | e :: rest =>
    let r := handleStreamEventClosure capturedOriginalRequest s e
    let r2 := processFramesClosure capturedOriginalRequest r.1 rest
    (r2.1, r.2.toList ++ r2.2)

/-- A concrete first request for a brand-new thread. -/
def requestW : String := "summarize the quarterly report and email it to the team"

/-- C8 at the failing input: on the new-chat page the submitting render still
has `originalRequest = ""` (its initial value), so the closure the stream loop
invokes captured `""`; for request `requestW` on a brand-new thread, the single
create call fired on the first progress frame carries title `"New Chat"` —
never the first 100 characters of the request, contrary to the spec's stated
title. -/
theorem stale_closure_title_new_chat :
    (processFramesClosure "" (executeWorkflowStart mkInitialState requestW)
        framesOneProgressW).2 =
      [{ threadId := "t1", title := "New Chat" }] ∧
    "New Chat" ≠ jsSlice0 requestW 100 := by
  decide

/-! ## C4 -/

/-- The spec §3 step invariant, on the client's step list: at most one step is
`awaiting_approval`, and only with its requires-approval flag set. -/
def stepsInvariant (steps : List WorkflowStep) : Prop :=
  (steps.countP fun st => decide (st.status = StepStatus.awaiting_approval)) ≤ 1 ∧
  ∀ st ∈ steps, st.status = StepStatus.awaiting_approval →
    st.requires_human_approval = some true

/-- Well-formedness of one incoming frame relative to the current client state:
a `progress` plan itself satisfies the step invariant, and an
`approval_required` frame targets a step number that identifies at most one
step, only flag-set steps, and every already-awaiting step. -/
def frameOk (s : ChatWorkflowState) : StreamEvent → Prop
  | .progress _ _ plan =>
    match plan with
    | some p => stepsInvariant (p.steps.map mapEventStep)
    | none => True
  | .approval_required step_number interrupt_step_number =>
    match jsNumOr step_number interrupt_step_number with
    | some stepNum =>
      (s.steps.countP fun st => decide (st.step_number = stepNum)) ≤ 1 ∧
      (∀ st ∈ s.steps, st.step_number = stepNum →
        st.requires_human_approval = some true) ∧
      (∀ st ∈ s.steps, st.status = StepStatus.awaiting_approval →
        st.step_number = stepNum)
    | none => True
  | _ => True

/-- Well-formedness of a frame sequence along the trajectory it induces. -/
def framesOk (s : ChatWorkflowState) : List StreamEvent → Prop
  | [] => True
  | e :: rest => frameOk s e ∧ framesOk (handleStreamEvent s e).1 rest

/-- A step-list map that changes neither statuses nor approval flags preserves
the step invariant. -/
theorem stepsInvariant_map (l : List WorkflowStep) (g : WorkflowStep → WorkflowStep)
    (hstat : ∀ st, (g st).status = st.status)
    (hreq : ∀ st, (g st).requires_human_approval = st.requires_human_approval)
    (h : stepsInvariant l) : stepsInvariant (l.map g) := by
  obtain ⟨hcount, hflag⟩ := h
  constructor
  · rw [List.countP_map]
    calc (l.countP fun st => decide ((g st).status = StepStatus.awaiting_approval))
        = l.countP fun st => decide (st.status = StepStatus.awaiting_approval) :=
          List.countP_congr (by intro st _; simp [hstat st])
      _ ≤ 1 := hcount
  · intro st hmem hawait
    obtain ⟨st0, hmem0, rfl⟩ := List.mem_map.mp hmem
    rw [hstat st0] at hawait
    rw [hreq st0]
    exact hflag st0 hmem0 hawait

/-- After marking the target step number awaiting, the awaiting count equals
the count of target-numbered steps, provided every already-awaiting step bears
the target number. -/
theorem countP_awaiting_mark (stepNum : Nat) (l : List WorkflowStep)
    (hawaitN : ∀ st ∈ l, st.status = StepStatus.awaiting_approval →
      st.step_number = stepNum) :
    ((l.map fun st =>
        if st.step_number = stepNum then { st with status := .awaiting_approval }
        else st).countP fun st =>
          decide (st.status = StepStatus.awaiting_approval)) =
      l.countP fun st => decide (st.step_number = stepNum) := by
  induction l with
  | nil => rfl
  | cons a l2 ih =>
    have h2 := ih fun st hm => hawaitN st (List.mem_cons_of_mem _ hm)
    by_cases ha : a.step_number = stepNum
    · simp only [List.map_cons, List.countP_cons, h2]
      simp [ha]
    · have hano : ¬ a.status = StepStatus.awaiting_approval :=
        fun hc => ha (hawaitN a (List.mem_cons_self _ _) hc)
      simp only [List.map_cons, List.countP_cons, h2]
      simp [ha, hano]


/-- Marking the (at most one, flag-set) target step of an `approval_required`
frame preserves the step invariant when every already-awaiting step is the
target. -/
theorem stepsInvariant_approval (l : List WorkflowStep) (stepNum : Nat)
    (hcount : (l.countP fun st => decide (st.step_number = stepNum)) ≤ 1)
    (hreqN : ∀ st ∈ l, st.step_number = stepNum →
      st.requires_human_approval = some true)
    (hawaitN : ∀ st ∈ l, st.status = StepStatus.awaiting_approval →
      st.step_number = stepNum)
    (hinv : stepsInvariant l) :
    stepsInvariant (l.map fun st =>
      if st.step_number = stepNum then { st with status := .awaiting_approval }
      else st) := by
  constructor
  · rw [countP_awaiting_mark stepNum l hawaitN]
    exact hcount
  · intro st hmem hawait
    obtain ⟨st0, hmem0, rfl⟩ := List.mem_map.mp hmem
    by_cases ha : st0.step_number = stepNum
    · simp only [ha, if_pos]
      exact hreqN st0 hmem0 ha
    · rw [if_neg ha] at hawait ⊢
      exact hinv.2 st0 hmem0 hawait

/-- Processing one well-formed frame preserves the step invariant. -/
theorem handleStreamEvent_invariant (s : ChatWorkflowState) (e : StreamEvent)
    (hinv : stepsInvariant s.steps) (hok : frameOk s e) :
    stepsInvariant (handleStreamEvent s e).1.steps := by
  cases e with
  | integrations_ready a b => exact hinv
  | integration_added_incrementally i => cases i <;> exact hinv
  | step_thinking sn c d =>
    simp only [handleStreamEvent]
    cases hsn : natFalsyFilter sn with
    | none => exact hinv
    | some n =>
      exact stepsInvariant_map s.steps _
        (fun st => by split <;> rfl)
        (fun st => by split <;> rfl) hinv
  | token sn c => exact hinv
  | thinking c => exact hinv
  | progress tid cur pl =>
    simp only [handleStreamEvent]
    cases pl with
    | none =>
      cases htid : jsTruthyStr tid with
      | none => exact hinv
      | some t =>
        dsimp only
        split <;> exact hinv
    | some p =>
      have hok2 : stepsInvariant (p.steps.map mapEventStep) := hok
      exact hok2
  | approval_required sn isn =>
    simp only [handleStreamEvent]
    cases hn : jsNumOr sn isn with
    | none => exact hinv
    | some stepNum =>
      have hok3 : (match jsNumOr sn isn with
          | some k =>
            (s.steps.countP fun st => decide (st.step_number = k)) ≤ 1 ∧
            (∀ st ∈ s.steps, st.step_number = k →
              st.requires_human_approval = some true) ∧
            (∀ st ∈ s.steps, st.status = StepStatus.awaiting_approval →
              st.step_number = k)
          | none => True) := hok
      rw [hn] at hok3
      exact stepsInvariant_approval s.steps stepNum hok3.1 hok3.2.1 hok3.2.2 hinv
  | error m => exact hinv
  | done => exact hinv

/-- C4 amended: starting from any client state satisfying the step invariant,
processing any sequence of well-formed stream frames (in the sense of
`frameOk` along the trajectory) keeps the invariant: at most one step is
`awaiting_approval`, and only with its requires-approval flag set. -/
theorem client_invariant_of_wellformed_frames (frames : List StreamEvent)
    (s : ChatWorkflowState) (hinv : stepsInvariant s.steps)
    (hok : framesOk s frames) :
    stepsInvariant (processFrames s frames).1.steps := by
  induction frames generalizing s with
  | nil => exact hinv
  | cons e rest ih =>
    have hok2 : frameOk s e ∧ framesOk (handleStreamEvent s e).1 rest := hok
    exact ih _ (handleStreamEvent_invariant s e hinv hok2.1) hok2.2

/-- An awaiting step payload whose requires-approval flag is NOT set. -/
def badStepW (n : Nat) : EventStep :=
  { step_number := n, description := "step", status := .awaiting_approval,
    result := none, error := none, tools_used := none,
    requires_human_approval := some false, approval_reason := none,
    thinking := none, thinking_duration_ms := none, search_results := none }

/-- A progress-frame plan with two awaiting, flag-unset steps. -/
def badPlanW : EventPlan :=
  { thinking := none, steps := [badStepW 1, badStepW 2], is_complete := false }

/-- Frame sequence delivering `badPlanW`. -/
def framesBadW : List StreamEvent :=
  [.progress (some "t1") (some 0) (some badPlanW)]

/-- Counterexample for C4: the client copies progress-frame statuses verbatim,
so one reachable state has two `awaiting_approval` steps, both with the
requires-approval flag unset — refuting both halves of the claimed invariant. -/
theorem client_invariant_counterexample :
    ((processFrames mkInitialState framesBadW).1.steps.countP fun st =>
        decide (st.status = StepStatus.awaiting_approval)) = 2 ∧
    ∃ st ∈ (processFrames mkInitialState framesBadW).1.steps,
      st.status = StepStatus.awaiting_approval ∧
      st.requires_human_approval ≠ some true := by
  decide

/-- A pending step payload for the C4 witness plan. -/
def goodStepW : EventStep :=
  { step_number := 1, description := "search", status := .pending,
    result := none, error := none, tools_used := none,
    requires_human_approval := some false, approval_reason := none,
    thinking := none, thinking_duration_ms := none, search_results := none }

/-- A well-formed progress-frame plan. -/
def goodPlanW : EventPlan :=
  { thinking := none, steps := [goodStepW], is_complete := false }

/-- Frame sequence delivering `goodPlanW`. -/
def framesGoodW : List StreamEvent :=
  [.progress (some "t1") (some 0) (some goodPlanW)]

/-- Witness for the amended C4 at a concrete well-formed stream. -/
theorem client_invariant_witness :
    stepsInvariant (processFrames mkInitialState framesGoodW).1.steps :=
  client_invariant_of_wellformed_frames framesGoodW mkInitialState
    (by constructor <;> simp [mkInitialState, stepsInvariant])
    (by
      refine ⟨?_, trivial⟩
      show stepsInvariant (goodPlanW.steps.map mapEventStep)
      constructor <;> decide)
